import Mathlib

/-!
Verification of the demangle-tree node printer (lib/Demangling/NodePrinter.cpp).

The development shallowly embeds the printer: the node tree, the options
record, the transient printer state (output buffer, one-shot specialization
flag, validity flag) and the recursive rendering functions.  The node-kind
enumeration is restricted to the kinds exercised by the verified properties;
every rendering rule is transcribed from the corresponding source function
(line numbers cited at each definition).  Recursion is fuel-indexed: every
printer function peels one unit of fuel and hands the rest to its callees,
matching the call structure of the C++ code; `0` fuel returns the state
unchanged.  Two ghost counters (`sppCalls`, `sppEmits`) instrument the
specialization-marker logic; they are written to nowhere else and read by no
rendering rule.
-/

set_option maxRecDepth 8000

namespace NodePrinterModel

/-- Modelled from the spec: the recognized standard-library module name, a
textual constant (declared in swift/Strings.h, outside the provided sources);
`findSugar` and `printContext` compare module text against it. -/
def STDLIB_NAME : String := "Swift"

/-- Modelled from the spec: the mangling name of the ObjC module (declared in
swift/Strings.h, outside the provided sources); only its use in
`printContext` matters here. -/
def MANGLING_MODULE_OBJC : String := "__C"

/-- Modelled from the spec: the prefix of debugger-generated module names
(declared outside the provided sources); only its use in `printContext`
matters here. -/
def LLDB_EXPRESSIONS_MODULE_NAME_PREFIX : String := "__lldb_expr_"

/-- Node kinds, restricted to the kinds exercised by the verified claims.
`AsyncAnnot`/`ThrowsAnnot` render the source's async/throws annotation kinds
(the source spelling is unavailable as a Lean identifier here). -/
inductive Kind where
  | ArgumentTuple
  | AsyncAnnot
  | AutoClosureType
  | BoundGenericClass
  | BoundGenericEnum
  | BoundGenericFunction
  | BoundGenericProtocol
  | BoundGenericStructure
  | CFunctionPointer
  | ClangType
  | Class
  | DependentGenericType
  | Enum
  | ExplicitClosure
  | FirstElementMarker
  | Function
  | FunctionSignatureSpecialization
  | FunctionType
  | GenericSpecialization
  | Global
  | Identifier
  | ImplicitClosure
  | Index
  | Initializer
  | InlinedGenericFunction
  | IsSerialized
  | LabelList
  | LocalDeclName
  | Module
  | NoEscapeFunctionType
  | PrivateDeclName
  | Protocol
  | ProtocolList
  | ProtocolListWithAnyObject
  | ProtocolListWithClass
  | ReturnType
  | SpecializationPassID
  | Structure
  | ThinFunctionType
  | ThrowsAnnot
  | Tuple
  | TupleElement
  | TupleElementName
  | Type
  | TypeList
  | UncurriedFunctionType
  | VariadicMarker
deriving DecidableEq, Repr

/-- A demangle node: a kind tag, optional text payload, optional numeric
index payload (presence distinguishable from zero), ordered children. -/
inductive Node where
  | mk (kind : Kind) (text : String) (indexPayload : Option Nat) (children : List Node)

def Node.kind : Node → Kind
  | .mk k _ _ _ => k

def Node.text : Node → String
  | .mk _ t _ _ => t

def Node.indexPayload : Node → Option Nat
  | .mk _ _ i _ => i

def Node.children : Node → List Node
  | .mk _ _ _ c => c

/-- Stand-in for an out-of-bounds child access; the C++ code asserts there.
No verified property evaluates the printer on a tree that reaches it. -/
def Node.null : Node := Node.mk Kind.Identifier "" none []

def Node.getNumChildren (n : Node) : Nat := n.children.length

def Node.getChild (n : Node) (i : Nat) : Node := n.children.getD i Node.null

def Node.getFirstChild (n : Node) : Node := n.getChild 0

def Node.hasChildren (n : Node) : Bool := !n.children.isEmpty

def Node.getIndex (n : Node) : Nat := n.indexPayload.getD 0

def Node.hasIndex (n : Node) : Bool := n.indexPayload.isSome

/-- DemangleOptions, restricted to the flags read by the modeled rendering
rules. -/
structure DemangleOptions where
  QualifyEntities : Bool
  SynthesizeSugarOnTypes : Bool
  DisplayModuleNames : Bool
  DisplayStdlibModule : Bool
  DisplayObjCModule : Bool
  HidingCurrentModule : String
  DisplayDebuggerGeneratedModule : Bool
  DisplayLocalNameContexts : Bool
  ShowPrivateDiscriminators : Bool
  ShowFunctionArgumentTypes : Bool
  DisplayEntityTypes : Bool
  DisplayGenericSpecializations : Bool
deriving DecidableEq, Repr

/-- Transient printer state (NodePrinter.cpp:167-172): output buffer `out`
(DemanglerPrinter Printer), one-shot flag `spp` (SpecializationPrefixPrinted)
and validity flag `valid` (isValid).  `sppCalls` and `sppEmits` are ghost
instrumentation: `sppCalls` counts entries into the specialization-prefix
printer, `sppEmits` counts executions of its statement that appends the
literal "specialized "; no rendering rule reads either. -/
structure PState where
  out : String
  spp : Bool
  valid : Bool
  sppCalls : Nat
  sppEmits : Nat
deriving DecidableEq, Repr

/-- Appending to the output buffer (DemanglerPrinter::operator<<). -/
def emit (s : String) (st : PState) : PState := { st with out := st.out ++ s }

/-- NodePrinter::setInvalid, NodePrinter.cpp:191. -/
def setInvalid (st : PState) : PState := { st with valid := false }

/-- NodePrinter::isSwiftModule, NodePrinter.cpp:238-241. -/
def isSwiftModule (n : Node) : Bool :=
  decide (n.kind = Kind.Module ∧ n.text = STDLIB_NAME)

/-- NodePrinter::isIdentifier, NodePrinter.cpp:260-263. -/
def isIdentifier (n : Node) (desired : String) : Bool :=
  decide (n.kind = Kind.Identifier ∧ n.text = desired)

/-- NodePrinter::printContext, NodePrinter.cpp:243-258 (returns whether the
context should be printed at all). -/
def printContext (o : DemangleOptions) (context : Node) : Bool :=
  if !o.QualifyEntities then false
  else if context.kind = Kind.Module then
    if context.text = STDLIB_NAME then o.DisplayStdlibModule
    else if context.text = MANGLING_MODULE_OBJC then o.DisplayObjCModule
    else if context.text = o.HidingCurrentModule then false
    else if LLDB_EXPRESSIONS_MODULE_NAME_PREFIX.isPrefixOf context.text then
      o.DisplayDebuggerGeneratedModule
    else true
  else true

/-- NodePrinter::SugarType, NodePrinter.cpp:265-271. -/
inductive SugarType where
  | None
  | Optional
  | ImplicitlyUnwrappedOptional
  | Array
  | Dictionary
deriving DecidableEq, Repr

/-- NodePrinter::TypePrinting, NodePrinter.cpp:273-277. -/
inductive TypePrinting where
  | NoType
  | WithColon
  | FunctionStyle
deriving DecidableEq, Repr

/-- NodePrinter::isSimpleType, NodePrinter.cpp:281-568, restricted to the
modeled kinds; each arm mirrors the classification of that kind in the
source switch. -/
def isSimpleType (n : Node) : Bool :=
  match n.kind with
  | Kind.BoundGenericClass
  | Kind.BoundGenericEnum
  | Kind.BoundGenericStructure
  | Kind.BoundGenericProtocol
  | Kind.BoundGenericFunction
  | Kind.Class
  | Kind.DependentGenericType
  | Kind.Enum
  | Kind.Module
  | Kind.Tuple
  | Kind.Protocol
  | Kind.ReturnType
  | Kind.Structure
  | Kind.TupleElementName
  | Kind.Type
  | Kind.TypeList
  | Kind.LabelList => true
  | Kind.ProtocolList => decide ((n.getChild 0).getNumChildren ≤ 1)
  | Kind.ProtocolListWithAnyObject =>
      decide (((n.getChild 0).getChild 0).getNumChildren = 0)
  | Kind.ProtocolListWithClass
  | Kind.ArgumentTuple
  | Kind.AsyncAnnot
  | Kind.AutoClosureType
  | Kind.CFunctionPointer
  | Kind.ClangType
  | Kind.ExplicitClosure
  | Kind.FirstElementMarker
  | Kind.Function
  | Kind.FunctionSignatureSpecialization
  | Kind.FunctionType
  | Kind.GenericSpecialization
  | Kind.Global
  | Kind.Identifier
  | Kind.ImplicitClosure
  | Kind.Index
  | Kind.Initializer
  | Kind.InlinedGenericFunction
  | Kind.IsSerialized
  | Kind.LocalDeclName
  | Kind.NoEscapeFunctionType
  | Kind.PrivateDeclName
  | Kind.SpecializationPassID
  | Kind.ThinFunctionType
  | Kind.ThrowsAnnot
  | Kind.TupleElement
  | Kind.UncurriedFunctionType
  | Kind.VariadicMarker => false

/-- NodePrinter::findSugar, NodePrinter.cpp:579-630. -/
def findSugar (n : Node) : SugarType :=
  match n with
  | Node.mk Kind.Type _ _ [c] => findSugar c
  | _ =>
    if n.getNumChildren ≠ 2 then SugarType.None
    else if n.kind ≠ Kind.BoundGenericEnum ∧ n.kind ≠ Kind.BoundGenericStructure then
      SugarType.None
    else
      let unboundType := (n.getChild 0).getChild 0
      let typeArgs := n.getChild 1
      if n.kind = Kind.BoundGenericEnum then
        if isIdentifier (unboundType.getChild 1) "Optional" ∧
            typeArgs.getNumChildren = 1 ∧ isSwiftModule (unboundType.getChild 0) then
          SugarType.Optional
        else if isIdentifier (unboundType.getChild 1) "ImplicitlyUnwrappedOptional" ∧
            typeArgs.getNumChildren = 1 ∧ isSwiftModule (unboundType.getChild 0) then
          SugarType.ImplicitlyUnwrappedOptional
        else SugarType.None
      else
        if isIdentifier (unboundType.getChild 1) "Array" ∧
            typeArgs.getNumChildren = 1 ∧ isSwiftModule (unboundType.getChild 0) then
          SugarType.Array
        else if isIdentifier (unboundType.getChild 1) "Dictionary" ∧
            typeArgs.getNumChildren = 2 ∧ isSwiftModule (unboundType.getChild 0) then
          SugarType.Dictionary
        else SugarType.None

/-- NodePrinter::getChildIf, NodePrinter.cpp:690-696. -/
def getChildIf (n : Node) (k : Kind) : Option Node :=
  n.children.find? (fun c => decide (c.kind = k))

/-- needSpaceBeforeType, NodePrinter.cpp:1081-1093. -/
def needSpaceBeforeType (n : Node) : Bool :=
  match n with
  | Node.mk Kind.Type _ _ (c :: _) => needSpaceBeforeType c
  | Node.mk Kind.Type _ _ [] => true
  | Node.mk Kind.FunctionType _ _ _ => false
  | Node.mk Kind.NoEscapeFunctionType _ _ _ => false
  | Node.mk Kind.UncurriedFunctionType _ _ _ => false
  | Node.mk Kind.DependentGenericType _ _ _ => false
  | _ => true

/-- The while loop in printEntity's FunctionStyle check, NodePrinter.cpp:
2645-2647: descend through DependentGenericType wrapping. -/
def unwrapDependentGenericType : Node → Node
  | Node.mk Kind.DependentGenericType _ _ (_ :: Node.mk _ _ _ (c10 :: _) :: _) =>
      unwrapDependentGenericType c10
  | Node.mk Kind.DependentGenericType _ _ _ => Node.null
  | n => n

/-- getLabelFor (lambda inside printFunctionParameters), NodePrinter.cpp:
720-726. -/
def getLabelFor (labelList : Option Node) (i : Nat) : String :=
  let label := (labelList.getD Node.null).getChild i
  if label.kind = Kind.Identifier then label.text else "_"

mutual

/-- NodePrinter::print, NodePrinter.cpp:1095-2548, the dispatcher, restricted
to the modeled kinds; each arm transcribes the source case for that kind (the
cited line is where the case starts).  The returned node is the leftover
postfix context (nullptr modeled as `none`). -/
def print : Nat → DemangleOptions → Node → Bool → PState → PState × Option Node
  | 0, _, _, _, st => (st, none)
  | fuel+1, o, n, asPrefixContext, st =>
    match n.kind with
    | Kind.Function
    | Kind.BoundGenericFunction =>  -- 1212
        printEntity fuel o n asPrefixContext TypePrinting.FunctionStyle true "" (-1) "" st
    | Kind.ExplicitClosure =>  -- 1223
        printEntity fuel o n asPrefixContext
          (if o.ShowFunctionArgumentTypes then TypePrinting.FunctionStyle
           else TypePrinting.NoType)
          false "closure #" (((n.getChild 1).getIndex : Int) + 1) "" st
    | Kind.ImplicitClosure =>  -- 1229
        printEntity fuel o n asPrefixContext
          (if o.ShowFunctionArgumentTypes then TypePrinting.FunctionStyle
           else TypePrinting.NoType)
          false "implicit closure #" (((n.getChild 1).getIndex : Int) + 1) "" st
    | Kind.Global =>  -- 1235
        (printChildrenNode fuel o n none st, none)
    | Kind.Initializer =>  -- 1244
        printEntity fuel o n asPrefixContext TypePrinting.NoType false
          "variable initialization expression" (-1) "" st
    | Kind.Type =>  -- 1258
        ((print fuel o (n.getChild 0) false st).1, none)
    | Kind.Class
    | Kind.Structure
    | Kind.Enum
    | Kind.Protocol =>  -- 1268
        printEntity fuel o n asPrefixContext TypePrinting.NoType true "" (-1) "" st
    | Kind.LocalDeclName =>  -- 1276
        let st := (print fuel o (n.getChild 1) false st).1
        let st :=
          if o.DisplayLocalNameContexts then
            emit (" #" ++ toString ((n.getChild 0).getIndex + 1)) st
          else st
        (st, none)
    | Kind.PrivateDeclName =>  -- 1281
        if n.getNumChildren > 1 then
          let st := if o.ShowPrivateDiscriminators then emit "(" st else st
          let st := (print fuel o (n.getChild 1) false st).1
          let st :=
            if o.ShowPrivateDiscriminators then
              emit (" in " ++ (n.getChild 0).text ++ ")") st
            else st
          (st, none)
        else
          (if o.ShowPrivateDiscriminators then
            emit ("(in " ++ (n.getChild 0).text ++ ")") st
          else st, none)
    | Kind.Module =>  -- 1300
        (if o.DisplayModuleNames then emit n.text st else st, none)
    | Kind.Identifier =>  -- 1304
        (emit n.text st, none)
    | Kind.Index =>  -- 1307
        (emit (toString n.getIndex) st, none)
    | Kind.FunctionType
    | Kind.UncurriedFunctionType
    | Kind.NoEscapeFunctionType
    | Kind.AutoClosureType
    | Kind.ThinFunctionType
    | Kind.CFunctionPointer =>  -- 1313
        (printFunctionType fuel o none n st, none)
    | Kind.ClangType =>  -- 1328
        (emit n.text st, none)
    | Kind.ArgumentTuple =>  -- 1331
        (printFunctionParameters fuel o none n o.ShowFunctionArgumentTypes st, none)
    | Kind.Tuple =>  -- 1334
        let st := emit "(" st
        let st := printChildrenNode fuel o n (some ", ") st
        (emit ")" st, none)
    | Kind.TupleElement =>  -- 1340
        let st :=
          match getChildIf n Kind.TupleElementName with
          | some label => emit (label.text ++ ": ") st
          | none => st
        let st :=
          match getChildIf n Kind.Type with
          | some ty => (print fuel o ty false st).1
          | none => st  -- asserted unreachable in the source
        let st :=
          match getChildIf n Kind.VariadicMarker with
          | some _ => emit "..." st
          | none => st
        (st, none)
    | Kind.TupleElementName =>  -- 1353
        (emit (n.text ++ ": ") st, none)
    | Kind.ReturnType =>  -- 1356
        if n.getNumChildren = 0 then
          (emit (" -> " ++ n.text) st, none)
        else
          let st := emit " -> " st
          (printChildrenNode fuel o n none st, none)
    | Kind.FunctionSignatureSpecialization =>  -- 1405
        (printSpecializationMarker fuel o n "function signature specialization" "" st, none)
    | Kind.GenericSpecialization =>  -- 1416
        (printSpecializationMarker fuel o n "generic specialization" "" st, none)
    | Kind.InlinedGenericFunction =>  -- 1425
        (printSpecializationMarker fuel o n "inlined generic function" "" st, none)
    | Kind.IsSerialized =>  -- 1428
        (emit "serialized" st, none)
    | Kind.SpecializationPassID =>  -- 1527
        (emit (toString n.getIndex) st, none)
    | Kind.TypeList =>  -- 2102
        (printChildrenNode fuel o n none st, none)
    | Kind.LabelList =>  -- 2105
        (st, none)
    | Kind.BoundGenericClass
    | Kind.BoundGenericStructure
    | Kind.BoundGenericEnum
    | Kind.BoundGenericProtocol =>  -- 1913
        (printBoundGeneric fuel o n st, none)
    | Kind.ProtocolList =>  -- 1969
        if n.getNumChildren = 0 then (st, none)
        else
          let typeList := n.getChild 0
          if typeList.getNumChildren = 0 then (emit "Any" st, none)
          else (printChildrenNode fuel o typeList (some " & ") st, none)
    | Kind.ProtocolListWithClass =>  -- 1979
        if n.getNumChildren < 2 then (st, none)
        else
          let protocols := n.getChild 0
          let superclass := n.getChild 1
          let st := (print fuel o superclass false st).1
          let st := emit " & " st
          if protocols.getNumChildren < 1 then (st, none)
          else
            let typeList := protocols.getChild 0
            (printChildrenNode fuel o typeList (some " & ") st, none)
    | Kind.ProtocolListWithAnyObject =>  -- 1992
        if n.getNumChildren < 1 then (st, none)
        else
          let protocols := n.getChild 0
          if protocols.getNumChildren < 1 then (st, none)
          else
            let typeList := protocols.getChild 0
            let st :=
              if typeList.getNumChildren > 0 then
                let st := printChildrenNode fuel o typeList (some " & ") st
                emit " & " st
              else st
            let st :=
              if o.QualifyEntities ∧ o.DisplayStdlibModule then
                emit (STDLIB_NAME ++ ".") st
              else st
            (emit "AnyObject" st, none)
    | Kind.DependentGenericType =>  -- 2294
        let sig := n.getChild 0
        let depTy := n.getChild 1
        let st := (print fuel o sig false st).1
        let st := if needSpaceBeforeType depTy then emit " " st else st
        ((print fuel o depTy false st).1, none)
    | Kind.AsyncAnnot =>  -- 2336
        (emit " async " st, none)
    | Kind.ThrowsAnnot =>  -- 2339
        (emit " throws " st, none)
    | Kind.FirstElementMarker =>  -- 2345
        (emit " first-element-marker " st, none)
    | Kind.VariadicMarker =>  -- 2348
        (emit " variadic-marker " st, none)

/-- NodePrinter::printChildren (iterator overload), NodePrinter.cpp:193-202.
Prints the given list of nodes, emitting the separator between elements. -/
def printChildrenSep : Nat → DemangleOptions → List Node → Option String → PState → PState
  | 0, _, _, _, st => st
  | _+1, _, [], _, st => st
  | fuel+1, o, c :: rest, sep, st =>
    let st := (print fuel o c false st).1
    let st :=
      if rest.isEmpty then st
      else match sep with
        | some s => emit s st
        | none => st
    printChildrenSep fuel o rest sep st

/-- NodePrinter::printChildren (node overload), NodePrinter.cpp:204-209. -/
def printChildrenNode : Nat → DemangleOptions → Node → Option String → PState → PState
  | 0, _, _, _, st => st
  | fuel+1, o, n, sep, st => printChildrenSep fuel o n.children sep st

/-- NodePrinter::printBoundGenericNoSugar, NodePrinter.cpp:221-229. -/
def printBoundGenericNoSugar : Nat → DemangleOptions → Node → PState → PState
  | 0, _, _, st => st
  | fuel+1, o, n, st =>
    if n.getNumChildren < 2 then st
    else
      let typelist := n.getChild 1
      let st := (print fuel o (n.getChild 0) false st).1
      let st := emit "<" st
      let st := printChildrenNode fuel o typelist (some ", ") st
      emit ">" st

/-- NodePrinter::printWithParens, NodePrinter.cpp:570-577. -/
def printWithParens : Nat → DemangleOptions → Node → PState → PState
  | 0, _, _, st => st
  | fuel+1, o, ty, st =>
    let needsParens := !isSimpleType ty
    let st := if needsParens then emit "(" st else st
    let st := (print fuel o ty false st).1
    if needsParens then emit ")" st else st

/-- NodePrinter::printBoundGeneric, NodePrinter.cpp:632-688. -/
def printBoundGeneric : Nat → DemangleOptions → Node → PState → PState
  | 0, _, _, st => st
  | fuel+1, o, n, st =>
    if n.getNumChildren < 2 then st
    else if n.getNumChildren ≠ 2 then printBoundGenericNoSugar fuel o n st
    else if !o.SynthesizeSugarOnTypes ∨ n.kind = Kind.BoundGenericClass then
      printBoundGenericNoSugar fuel o n st
    else if n.kind = Kind.BoundGenericProtocol then
      let st := printChildrenNode fuel o (n.getChild 1) none st
      let st := emit " as " st
      (print fuel o (n.getChild 0) false st).1
    else
      match findSugar n with
      | SugarType.None => printBoundGenericNoSugar fuel o n st
      | SugarType.Optional =>
          let ty := (n.getChild 1).getChild 0
          let st := printWithParens fuel o ty st
          emit "?" st
      | SugarType.ImplicitlyUnwrappedOptional =>
          let ty := (n.getChild 1).getChild 0
          let st := printWithParens fuel o ty st
          emit "!" st
      | SugarType.Array =>
          let ty := (n.getChild 1).getChild 0
          let st := emit "[" st
          let st := (print fuel o ty false st).1
          emit "]" st
      | SugarType.Dictionary =>
          let keyType := (n.getChild 1).getChild 0
          let valueType := (n.getChild 1).getChild 1
          let st := emit "[" st
          let st := (print fuel o keyType false st).1
          let st := emit " : " st
          let st := (print fuel o valueType false st).1
          emit "]" st

/-- Loop body of llvm::interleave inside printFunctionParameters,
NodePrinter.cpp:731-755 (per-element lambda plus separator lambda). -/
def printFunctionParametersLoop :
    Nat → DemangleOptions → Option Node → Bool → Bool → List Node → Nat → PState → PState
  | 0, _, _, _, _, _, _, st => st
  | _+1, _, _, _, _, [], _, st => st
  | fuel+1, o, labelList, hasLabels, showTypes, p :: rest, paramIndex, st =>
    let st :=
      if hasLabels then emit (getLabelFor labelList paramIndex ++ ":") st
      else if !showTypes then
        match getChildIf p Kind.TupleElementName with
        | some label => emit (label.text ++ ":") st
        | none => emit "_:" st
      else st
    let st := if hasLabels ∧ showTypes then emit " " st else st
    let st := if showTypes then (print fuel o p false st).1 else st
    let st :=
      if rest.isEmpty then st
      else emit (if showTypes then ", " else "") st
    printFunctionParametersLoop fuel o labelList hasLabels showTypes rest (paramIndex + 1) st

/-- NodePrinter::printFunctionParameters, NodePrinter.cpp:698-756. -/
def printFunctionParameters :
    Nat → DemangleOptions → Option Node → Node → Bool → PState → PState
  | 0, _, _, _, _, st => st
  | fuel+1, o, labelList, parameterType, showTypes, st =>
    if parameterType.kind ≠ Kind.ArgumentTuple then setInvalid st
    else
      let parameters := parameterType.getFirstChild  -- asserted to be a Type node
      let parameters := parameters.getFirstChild
      if parameters.kind ≠ Kind.Tuple then
        -- only a single not-named parameter
        if showTypes then
          let st := emit "(" st
          let st := (print fuel o parameters false st).1
          emit ")" st
        else emit "(_:)" st
      else
        let hasLabels :=
          match labelList with
          | some l => decide (l.getNumChildren > 0)
          | none => false
        let st := emit "(" st
        let st := printFunctionParametersLoop fuel o labelList hasLabels showTypes
          parameters.children 0 st
        emit ")" st

/-- NodePrinter::printFunctionType, NodePrinter.cpp:758-834.  Kinds outside
the modeled subset reach the source's asserting default and print no leading
annotation. -/
def printFunctionType : Nat → DemangleOptions → Option Node → Node → PState → PState
  | 0, _, _, _, st => st
  | fuel+1, o, labelList, n, st =>
    if n.getNumChildren < 2 ∨ n.getNumChildren > 5 then setInvalid st
    else
      let st :=
        match n.kind with
        | Kind.FunctionType
        | Kind.UncurriedFunctionType
        | Kind.NoEscapeFunctionType => st
        | Kind.AutoClosureType => emit "@autoclosure " st
        | Kind.ThinFunctionType => emit "@convention(thin) " st
        | Kind.CFunctionPointer =>
            -- printConventionWithMangledCType("c"), NodePrinter.cpp:764-773
            let st := emit "@convention(c" st
            let st :=
              if n.getFirstChild.kind = Kind.ClangType then
                let st := emit ", mangledCType: \"" st
                let st := (print fuel o n.getFirstChild false st).1
                emit "\"" st
              else st
            emit ") " st
        | _ => st
      let startIndex : Nat := 0
      let startIndex :=
        if (n.getChild startIndex).kind = Kind.ClangType then startIndex + 1 else startIndex
      let isThrows : Bool := decide ((n.getChild startIndex).kind = Kind.ThrowsAnnot)
      let startIndex := if isThrows then startIndex + 1 else startIndex
      let isAsync : Bool := decide ((n.getChild startIndex).kind = Kind.AsyncAnnot)
      let startIndex := if isAsync then startIndex + 1 else startIndex
      let st := printFunctionParameters fuel o labelList (n.getChild startIndex)
        o.ShowFunctionArgumentTypes st
      if !o.ShowFunctionArgumentTypes then st
      else
        let st := if isAsync then emit " async" st else st
        let st := if isThrows then emit " throws" st else st
        (print fuel o (n.getChild (startIndex + 1)) false st).1

/-- Loop over children inside printSpecializationPrefix (verbose mode),
NodePrinter.cpp:1038-1073.  The special handling of function-signature
specialization parameter/return children is outside the modeled subset; such
children take the default arm. -/
def printSpecializationLoop :
    Nat → DemangleOptions → List Node → String → String → Nat → PState → PState
  | 0, _, _, _, _, _, st => st
  | _+1, _, [], _, _, _, st => st
  | fuel+1, o, c :: rest, separator, paramQualifier, argNum, st =>
    match c.kind with
    | Kind.SpecializationPassID =>
        printSpecializationLoop fuel o rest separator paramQualifier argNum st
    | Kind.IsSerialized =>
        let st := emit separator st
        let st := (print fuel o c false st).1
        printSpecializationLoop fuel o rest ", " paramQualifier argNum st
    | _ =>
        if c.hasChildren then
          let st := emit (separator ++ paramQualifier) st
          let st := (print fuel o c false st).1
          printSpecializationLoop fuel o rest ", " paramQualifier (argNum + 1) st
        else
          printSpecializationLoop fuel o rest separator paramQualifier (argNum + 1) st

/-- NodePrinter::printSpecializationPrefix, NodePrinter.cpp:1026-1075.  The
ghost counter `sppCalls` records the entry, `sppEmits` records the execution
of the statement appending the "specialized " literal. -/
def printSpecializationMarker :
    Nat → DemangleOptions → Node → String → String → PState → PState
  | 0, _, _, _, _, st => st
  | fuel+1, o, n, description, paramQualifier, st =>
    let st := { st with sppCalls := st.sppCalls + 1 }
    if !o.DisplayGenericSpecializations then
      if !st.spp then
        let st := emit "specialized " st
        { st with spp := true, sppEmits := st.sppEmits + 1 }
      else st
    else
      let st := emit (description ++ " <") st
      let st := printSpecializationLoop fuel o n.children "" paramQualifier 0 st
      emit "> of " st

/-- Context placement step of NodePrinter::printEntity, NodePrinter.cpp:
2592-2607: render the context in prefix form followed by '.' unless the
name is multi-word, in which case defer it; the second component is the
deferred postfix context. -/
def printEntityContext :
    Nat → DemangleOptions → Node → Bool → PState → PState × Option Node
  | 0, _, _, _, st => (st, none)
  | fuel+1, o, entity, multiWordName, st =>
    let context := entity.getChild 0
    if printContext o context then
      if multiWordName then
        -- If the name contains some spaces we don't print the context now
        -- but later in suffix form.
        (st, some context)
      else
        let currentPos := st.out.length
        let pr := print fuel o context true st
        -- Was the context printed as prefix?
        (if pr.1.out.length ≠ currentPos then emit "." pr.1 else pr.1, pr.2)
    else (st, none)

/-- Name rendering step of NodePrinter::printEntity, NodePrinter.cpp:
2609-2629; the second component is the extra name still left to print. -/
def printEntityName :
    Nat → DemangleOptions → Node → Bool → String → Bool → String → PState → PState × String
  | 0, _, _, _, extraName0, _, _, st => (st, extraName0)
  | fuel+1, o, entity, hasName, extraName0, multiWordName, overwriteName, st =>
    if hasName ∨ overwriteName ≠ "" then
      let extraName := if extraName0 ≠ "" ∧ multiWordName then "" else extraName0
      let st :=
        if extraName0 ≠ "" ∧ multiWordName then emit (extraName0 ++ " of ") st else st
      let currentPos := st.out.length
      let st :=
        if overwriteName ≠ "" then emit overwriteName st
        else
          let name := entity.getChild 1
          let st :=
            if name.kind ≠ Kind.PrivateDeclName then (print fuel o name false st).1
            else st
          match getChildIf entity Kind.PrivateDeclName with
          | some privateName => (print fuel o privateName false st).1
          | none => st
      (if st.out.length ≠ currentPos ∧ extraName ≠ "" then emit "." st else st,
       extraName)
    else (st, extraName0)

/-- Type rendering step of NodePrinter::printEntity, NodePrinter.cpp:
2635-2668.  The early return on a missing Type child (setInvalid,
2637-2641) is modeled by a false second component. -/
def printEntityTypeSection :
    Nat → DemangleOptions → Node → TypePrinting → Bool → Option Node → PState →
    PState × Bool
  | 0, _, _, _, _, _, st => (st, true)
  | fuel+1, o, entity, typePr0, multiWordName, genericFunctionTypeList, st =>
    if typePr0 ≠ TypePrinting.NoType then
      match getChildIf entity Kind.Type with
      | none => (setInvalid st, false)
      | some typeNode =>
        let ty := typeNode.getChild 0
        let typePr :=
          if typePr0 = TypePrinting.FunctionStyle then
            -- We expect to see a function type here, but if we don't, use the colon.
            let t := unwrapDependentGenericType ty
            if t.kind ≠ Kind.FunctionType ∧ t.kind ≠ Kind.NoEscapeFunctionType ∧
                t.kind ≠ Kind.UncurriedFunctionType ∧ t.kind ≠ Kind.CFunctionPointer ∧
                t.kind ≠ Kind.ThinFunctionType then
              TypePrinting.WithColon
            else TypePrinting.FunctionStyle
          else typePr0
        if typePr = TypePrinting.WithColon then
          if o.DisplayEntityTypes then
            let st := emit " : " st
            (printEntityType fuel o entity ty genericFunctionTypeList st, true)
          else (st, true)
        else
          let st := if multiWordName ∨ needSpaceBeforeType ty then emit " " st else st
          (printEntityType fuel o entity ty genericFunctionTypeList st, true)
    else (st, true)

/-- NodePrinter::printEntity, NodePrinter.cpp:2566-2683, sequencing the
context, name, extra-name, type and postfix-context steps.  Of the three
initializer-like kinds tested at 2672-2674 only `Initializer` is in the
modeled subset. -/
def printEntity :
    Nat → DemangleOptions → Node → Bool → TypePrinting → Bool → String → Int → String →
    PState → PState × Option Node
  | 0, _, _, _, _, _, _, _, _, st => (st, none)
  | fuel+1, o, entity0, asPrefixContext, typePr0, hasName, extraName0, extraIndex,
      overwriteName, st =>
    let genericFunctionTypeList : Option Node :=
      if entity0.kind = Kind.BoundGenericFunction then some (entity0.getChild 1) else none
    let entity :=
      if entity0.kind = Kind.BoundGenericFunction then entity0.getFirstChild else entity0
    -- ExtraName.contains(' '), modeled on the character list of the string
    let multiWordName := extraName0.data.contains ' '
    let localName : Bool :=
      hasName && decide ((entity.getChild 1).kind = Kind.LocalDeclName)
    let multiWordName := multiWordName || (localName && o.DisplayLocalNameContexts)
    if asPrefixContext && (decide (typePr0 ≠ TypePrinting.NoType) || multiWordName) then
      -- If the context has a type to be printed, we can't use the prefix form.
      (st, some entity)
    else
      let stPc := printEntityContext fuel o entity multiWordName st
      let postfixContext := stPc.2
      let stEn := printEntityName fuel o entity hasName extraName0 multiWordName
        overwriteName stPc.1
      let extraName := stEn.2
      let st :=
        if extraName ≠ "" then
          let st := emit extraName stEn.1
          if extraIndex ≥ 0 then emit (toString extraIndex) st else st
        else stEn.1
      let stOk := printEntityTypeSection fuel o entity typePr0 multiWordName
        genericFunctionTypeList st
      if !stOk.2 then (stOk.1, none)
      else
        if !asPrefixContext && postfixContext.isSome &&
            (!localName || o.DisplayLocalNameContexts) then
          -- Print any left over context which couldn't be printed in prefix form.
          let st := emit (if entity.kind = Kind.Initializer then " of " else " in ") stOk.1
          let st := (print fuel o (postfixContext.getD Node.null) false st).1
          (st, none)
        else (stOk.1, postfixContext)

/-- NodePrinter::printEntityType, NodePrinter.cpp:2685-2707. -/
def printEntityType :
    Nat → DemangleOptions → Node → Node → Option Node → PState → PState
  | 0, _, _, _, _, st => st
  | fuel+1, o, entity, ty0, genericFunctionTypeList, st =>
    let labelList := getChildIf entity Kind.LabelList
    if labelList.isSome ∨ genericFunctionTypeList.isSome then
      let st :=
        match genericFunctionTypeList with
        | some l =>
            let st := emit "<" st
            let st := printChildrenNode fuel o l (some ", ") st
            emit ">" st
        | none => st
      let stTy : PState × Node :=
        if ty0.kind = Kind.DependentGenericType then
          let st :=
            if genericFunctionTypeList.isNone then (print fuel o (ty0.getChild 0) false st).1
            else st
          let dependentType := ty0.getChild 1
          let st := if needSpaceBeforeType dependentType then emit " " st else st
          (st, dependentType.getFirstChild)
        else (st, ty0)
      printFunctionType fuel o labelList stTy.2 stTy.1
    else (print fuel o ty0 false st).1

end

/-- NodePrinter construction (NodePrinter.cpp:175): member initializers give
an empty buffer, SpecializationPrefixPrinted = false, isValid = true; the
ghost counters start at zero. -/
def mkNodePrinter : PState :=
  { out := "", spp := false, valid := true, sppCalls := 0, sppEmits := 0 }

/-- NodePrinter::printRoot, NodePrinter.cpp:177-183.  Only `isValid` is
(re)assigned on entry; on the valid path the buffer is moved out of the
printer (modeled as leaving it empty, matching the usual moved-from string),
on the invalid path the accumulated buffer stays in the printer and the
empty string is returned.  The second component is the printer object's
state after the call. -/
def printRoot (fuel : Nat) (o : DemangleOptions) (root : Node) (st : PState) :
    String × PState :=
  let st := { st with valid := true }
  let st := (print fuel o root false st).1
  if st.valid then (st.out, { st with out := "" })
  else ("", st)

/-- Demangle::nodeToString, NodePrinter.cpp:2709-2715: a null root returns
the empty string before any printer is constructed; otherwise a fresh
NodePrinter is constructed and printRoot invoked on it.  `fuel` bounds the
recursion depth of the model. -/
def nodeToString (fuel : Nat) (root : Option Node) (o : DemangleOptions) : String :=
  match root with
  | none => ""
  | some r => (printRoot fuel o r mkNodePrinter).1

/-- The do-while loop of Demangle::genericParameterName, NodePrinter.cpp:
56-59: append 'A' + index % 26, divide the index by 26, repeat while it is
nonzero. -/
def genericParameterNameLoop (index : Nat) : String :=
  let c := Char.ofNat ('A'.toNat + index % 26)
  if h : index / 26 = 0 then String.singleton c
  else String.singleton c ++ genericParameterNameLoop (index / 26)
  termination_by index
  decreasing_by
    exact Nat.div_lt_self (Nat.pos_of_ne_zero (by omega)) (by omega)

/-- Demangle::genericParameterName, NodePrinter.cpp:54-63. -/
def genericParameterName (depth index : Nat) : String :=
  genericParameterNameLoop index ++ (if depth ≠ 0 then toString depth else "")

/-- The uppercase hex digit table inside operator<<(DemanglerPrinter &,
const QuotedString &), NodePrinter.cpp:88-91. -/
def hexdigit (v : Nat) : Char :=
  (['0', '1', '2', '3', '4', '5', '6', '7', '8', '9',
    'A', 'B', 'C', 'D', 'E', 'F'].getD v '0')

/-- The per-byte escaping switch of operator<<(DemanglerPrinter &, const
QuotedString &), NodePrinter.cpp:77-97.  Bytes are Fin 256, making the
routine total over arbitrary byte sequences. -/
def quotedCharExpansion (c : Fin 256) : String :=
  if c.val = 92 then "\\\\"       -- backslash
  else if c.val = 9 then "\\t"
  else if c.val = 10 then "\\n"
  else if c.val = 13 then "\\r"
  else if c.val = 34 then "\\\""  -- double quote
  else if c.val = 0 then "\\0"
  -- Other control or high-bit characters should get escaped.
  else if c.val < 0x20 ∨ c.val ≥ 0x7F then
    "\\x" ++ String.singleton (hexdigit (c.val / 16)) ++ String.singleton (hexdigit (c.val % 16))
  else String.singleton (Char.ofNat c.val)

/-- operator<<(DemanglerPrinter &, const QuotedString &), NodePrinter.cpp:
73-101: wrap in double quotes, expanding each byte in order. -/
def printQuotedString (bytes : List (Fin 256)) : String :=
  "\"" ++ String.join (bytes.map quotedCharExpansion) ++ "\""

/-! Specification-side definitions, written from the specification's words
(never from the code), used to compare the embedded code against the
specified behavior. -/

/-- Specification-side uppercase hex digit: value 0-9 maps to '0'..'9'
(codepoint 48+v), value 10-15 to 'A'..'F' (codepoint 55+v). -/
def hexUpperSpec (v : Nat) : Char :=
  if v < 10 then Char.ofNat (48 + v) else Char.ofNat (55 + v)

/-- Specification-side per-byte escape map: backslash, tab, newline,
carriage return, double quote and NUL get their standard two-character
escapes; any other byte below 0x20 or at/above 0x7F becomes a four
character uppercase \xHH escape; remaining printable ASCII passes through
unchanged. -/
def quotedCharSpec (b : Fin 256) : String :=
  match b.val with
  | 92 => "\\\\"
  | 9 => "\\t"
  | 10 => "\\n"
  | 13 => "\\r"
  | 34 => "\\\""
  | 0 => "\\0"
  | v =>
    if v < 32 ∨ 127 ≤ v then
      "\\x" ++ String.mk [hexUpperSpec (v / 16), hexUpperSpec (v % 16)]
    else String.singleton (Char.ofNat v)

/-- Specification-side base-26 letter spelling of an index, least
significant letter first, using 'A' (codepoint 65) through 'Z': a single
letter for an index below 26, otherwise the letter of `index mod 26`
followed by the spelling of `index / 26`. -/
def base26LettersLSD (i : Nat) : List Char :=
  if i < 26 then [Char.ofNat (65 + i)]
  else Char.ofNat (65 + i % 26) :: base26LettersLSD (i / 26)
  termination_by i
  decreasing_by
    exact Nat.div_lt_self (by omega) (by omega)

/-! Concrete example trees and options used by witnesses and
counterexamples. -/

/-- A fully-enabled option set with terse specializations (the
display-generic-specializations flag off). -/
def exampleOptions : DemangleOptions :=
  { QualifyEntities := true, SynthesizeSugarOnTypes := true, DisplayModuleNames := true,
    DisplayStdlibModule := false, DisplayObjCModule := false, HidingCurrentModule := "",
    DisplayDebuggerGeneratedModule := true, DisplayLocalNameContexts := true,
    ShowPrivateDiscriminators := true, ShowFunctionArgumentTypes := true,
    DisplayEntityTypes := true, DisplayGenericSpecializations := false }

/-- The type node for the standard library's Int structure. -/
def intTypeNode : Node :=
  Node.mk Kind.Type "" none [Node.mk Kind.Structure "" none
    [Node.mk Kind.Module STDLIB_NAME none [], Node.mk Kind.Identifier "Int" none []]]

/-- A bound generic enum node for standard-library Optional with one type
argument. -/
def optionalNode (arg : Node) : Node :=
  Node.mk Kind.BoundGenericEnum "" none
    [Node.mk Kind.Type "" none [Node.mk Kind.Enum "" none
       [Node.mk Kind.Module STDLIB_NAME none [],
        Node.mk Kind.Identifier "Optional" none []]],
     Node.mk Kind.TypeList "" none [arg]]

/-- A bound generic enum node for standard-library
ImplicitlyUnwrappedOptional with one type argument. -/
def iuoNode (arg : Node) : Node :=
  Node.mk Kind.BoundGenericEnum "" none
    [Node.mk Kind.Type "" none [Node.mk Kind.Enum "" none
       [Node.mk Kind.Module STDLIB_NAME none [],
        Node.mk Kind.Identifier "ImplicitlyUnwrappedOptional" none []]],
     Node.mk Kind.TypeList "" none [arg]]

/-- A bound generic structure node for standard-library Array with one type
argument. -/
def arrayNode (arg : Node) : Node :=
  Node.mk Kind.BoundGenericStructure "" none
    [Node.mk Kind.Type "" none [Node.mk Kind.Structure "" none
       [Node.mk Kind.Module STDLIB_NAME none [],
        Node.mk Kind.Identifier "Array" none []]],
     Node.mk Kind.TypeList "" none [arg]]

/-- A bound generic structure node for standard-library Dictionary with two
type arguments. -/
def dictionaryNode (key value : Node) : Node :=
  Node.mk Kind.BoundGenericStructure "" none
    [Node.mk Kind.Type "" none [Node.mk Kind.Structure "" none
       [Node.mk Kind.Module STDLIB_NAME none [],
        Node.mk Kind.Identifier "Dictionary" none []]],
     Node.mk Kind.TypeList "" none [key, value]]

/-- A bound generic structure whose base identifier is "Array" but whose
enclosing module is an arbitrary module named `m`. -/
def foreignArrayNode (m : String) (arg : Node) : Node :=
  Node.mk Kind.BoundGenericStructure "" none
    [Node.mk Kind.Type "" none [Node.mk Kind.Structure "" none
       [Node.mk Kind.Module m none [],
        Node.mk Kind.Identifier "Array" none []]],
     Node.mk Kind.TypeList "" none [arg]]

/-- A function type node whose parameter child is an Identifier instead of
the expected ArgumentTuple (a locally tolerable structural mismatch). -/
def malformedFunctionTypeNode : Node :=
  Node.mk Kind.FunctionType "" none
    [Node.mk Kind.Identifier "x" none [], intTypeNode]

/-- A global containing two specialization-kind nodes followed by a plain
identifier. -/
def doubleSpecializationTree : Node :=
  Node.mk Kind.Global "" none
    [Node.mk Kind.GenericSpecialization "" none [],
     Node.mk Kind.InlinedGenericFunction "" none [],
     Node.mk Kind.Identifier "f" none []]

/-- An explicit closure entity (closure #1) inside a plain module context. -/
def exampleClosureNode : Node :=
  Node.mk Kind.ExplicitClosure "" none
    [Node.mk Kind.Module "MyModule" none [],
     Node.mk Kind.Index "" (some 0) []]

/-- An explicit closure entity (closure #1) inside a plain module context
that also carries its function type, as printed in function style when
argument types are shown. -/
def closureWithTypeNode : Node :=
  Node.mk Kind.ExplicitClosure "" none
    [Node.mk Kind.Module "MyModule" none [],
     Node.mk Kind.Index "" (some 0) [],
     Node.mk Kind.Type "" none
       [Node.mk Kind.FunctionType "" none
         [Node.mk Kind.ArgumentTuple "" none
            [Node.mk Kind.Type "" none [Node.mk Kind.Tuple "" none []]],
          Node.mk Kind.ReturnType "" none [intTypeNode]]]]

/-! Invariants used by the state-threading proofs. -/

/-- Invariant tying the one-shot specialization flag to the ghost counters:
the flag is set exactly when the specialization-prefix printer has been
entered at least once, and the "specialized " literal has been appended
exactly `min 1 sppCalls` times. -/
def SpecInv (st : PState) : Prop :=
  st.spp = decide (0 < st.sppCalls) ∧ st.sppEmits = min 1 st.sppCalls

/-- Relation between the printer state before and after any rendering step:
validity is never resurrected (a true result forces a true input), and under
terse specialization display the specialization-flag invariant is
preserved. -/
def StepR (o : DemangleOptions) (st st' : PState) : Prop :=
  (st'.valid = true → st.valid = true) ∧
  (o.DisplayGenericSpecializations = false → SpecInv st → SpecInv st')

/-- Bundle asserting the step relation for every printer function at a given
fuel. -/
structure StepAll (o : DemangleOptions) (fuel : Nat) : Prop where
  printOk : ∀ n apc st, StepR o st (print fuel o n apc st).1
  childrenSep : ∀ ns sep st, StepR o st (printChildrenSep fuel o ns sep st)
  childrenNode : ∀ n sep st, StepR o st (printChildrenNode fuel o n sep st)
  bgNoSugar : ∀ n st, StepR o st (printBoundGenericNoSugar fuel o n st)
  withParens : ∀ n st, StepR o st (printWithParens fuel o n st)
  boundGeneric : ∀ n st, StepR o st (printBoundGeneric fuel o n st)
  fnParamsLoop : ∀ ll hl sht ps i st,
    StepR o st (printFunctionParametersLoop fuel o ll hl sht ps i st)
  fnParams : ∀ ll pt sht st, StepR o st (printFunctionParameters fuel o ll pt sht st)
  fnType : ∀ ll n st, StepR o st (printFunctionType fuel o ll n st)
  specLoop : ∀ cs sep pq an st, StepR o st (printSpecializationLoop fuel o cs sep pq an st)
  specMarker : ∀ n d pq st, StepR o st (printSpecializationMarker fuel o n d pq st)
  entity : ∀ e apc tp hn en ei ow st, StepR o st (printEntity fuel o e apc tp hn en ei ow st).1
  entityType : ∀ e ty g st, StepR o st (printEntityType fuel o e ty g st)
  entityContext : ∀ e mw st, StepR o st (printEntityContext fuel o e mw st).1
  entityName : ∀ e hn en mw ow st, StepR o st (printEntityName fuel o e hn en mw ow st).1
  entityTypeSection : ∀ e tp mw g st,
    StepR o st (printEntityTypeSection fuel o e tp mw g st).1

theorem stepR_refl {o : DemangleOptions} {st : PState} : StepR o st st :=
  ⟨id, fun _ h => h⟩

theorem stepR_trans {o : DemangleOptions} {s t u : PState}
    (h1 : StepR o s t) (h2 : StepR o t u) : StepR o s u :=
  ⟨fun h => h1.1 (h2.1 h), fun ht hi => h2.2 ht (h1.2 ht hi)⟩

theorem stepR_emit {o : DemangleOptions} {st st' : PState} {s : String}
    (h : StepR o st st') : StepR o st (emit s st') :=
  stepR_trans h ⟨fun hv => hv, fun _ hi => hi⟩

theorem stepR_setInvalid {o : DemangleOptions} {st st' : PState}
    (h : StepR o st st') : StepR o st (setInvalid st') :=
  stepR_trans h ⟨fun hv => Bool.noConfusion hv, fun _ hi => hi⟩

section StepLemmas

set_option maxHeartbeats 1000000 in
theorem stepAll_childrenSep {o : DemangleOptions} {fuel : Nat} (ih : StepAll o fuel) :
    ∀ ns sep st, StepR o st (printChildrenSep (fuel+1) o ns sep st) := by
  intro ns sep st
  show StepR o st (printChildrenSep fuel.succ o ns sep st)
  cases ns with
  | nil =>
      rw [printChildrenSep.eq_2]
      exact stepR_refl
  | cons c rest =>
      cases sep with
      | none =>
          rw [printChildrenSep.eq_4]
          refine stepR_trans ?_ (ih.childrenSep _ _ _)
          split
          · exact ih.printOk _ _ _
          · exact ih.printOk _ _ _
      | some s =>
          rw [printChildrenSep.eq_3]
          refine stepR_trans ?_ (ih.childrenSep _ _ _)
          split
          · exact ih.printOk _ _ _
          · exact stepR_emit (ih.printOk _ _ _)

set_option maxHeartbeats 1000000 in
theorem stepAll_childrenNode {o : DemangleOptions} {fuel : Nat} (ih : StepAll o fuel) :
    ∀ n sep st, StepR o st (printChildrenNode (fuel+1) o n sep st) := by
  intro n sep st
  show StepR o st (printChildrenNode fuel.succ o n sep st)
  rw [printChildrenNode.eq_2]
  exact ih.childrenSep _ _ _

set_option maxHeartbeats 1000000 in
theorem stepAll_bgNoSugar {o : DemangleOptions} {fuel : Nat} (ih : StepAll o fuel) :
    ∀ n st, StepR o st (printBoundGenericNoSugar (fuel+1) o n st) := by
  intro n st
  show StepR o st (printBoundGenericNoSugar fuel.succ o n st)
  rw [printBoundGenericNoSugar.eq_2]
  repeat' first
    | refine stepR_trans ?_ (ih.childrenNode _ _ _)
    | refine stepR_trans ?_ (ih.printOk _ _ _)
    | refine stepR_emit ?_
    | exact stepR_refl
    | split
    | dsimp only

set_option maxHeartbeats 1000000 in
theorem stepAll_withParens {o : DemangleOptions} {fuel : Nat} (ih : StepAll o fuel) :
    ∀ n st, StepR o st (printWithParens (fuel+1) o n st) := by
  intro n st
  show StepR o st (printWithParens fuel.succ o n st)
  rw [printWithParens.eq_2]
  repeat' first
    | refine stepR_trans ?_ (ih.printOk _ _ _)
    | refine stepR_emit ?_
    | exact stepR_refl
    | split
    | dsimp only

set_option maxHeartbeats 1000000 in
theorem stepAll_boundGeneric {o : DemangleOptions} {fuel : Nat} (ih : StepAll o fuel) :
    ∀ n st, StepR o st (printBoundGeneric (fuel+1) o n st) := by
  intro n st
  show StepR o st (printBoundGeneric fuel.succ o n st)
  rw [printBoundGeneric.eq_2]
  repeat' first
    | refine stepR_trans ?_ (ih.bgNoSugar _ _)
    | refine stepR_trans ?_ (ih.childrenNode _ _ _)
    | refine stepR_trans ?_ (ih.withParens _ _)
    | refine stepR_trans ?_ (ih.printOk _ _ _)
    | refine stepR_emit ?_
    | exact stepR_refl
    | split
    | dsimp only

set_option maxHeartbeats 1000000 in
theorem stepAll_fnParamsLoop {o : DemangleOptions} {fuel : Nat} (ih : StepAll o fuel) :
    ∀ ll hl sht ps i st,
      StepR o st (printFunctionParametersLoop (fuel+1) o ll hl sht ps i st) := by
  intro ll hl sht ps i st
  show StepR o st (printFunctionParametersLoop fuel.succ o ll hl sht ps i st)
  cases ps with
  | nil =>
      rw [printFunctionParametersLoop.eq_2]
      exact stepR_refl
  | cons p rest =>
      rw [printFunctionParametersLoop.eq_3]
      refine stepR_trans ?_ (ih.fnParamsLoop _ _ _ _ _ _)
      repeat' first
        | refine stepR_trans ?_ (ih.printOk _ _ _)
        | refine stepR_emit ?_
        | exact stepR_refl
        | split
        | dsimp only

set_option maxHeartbeats 1000000 in
theorem stepAll_fnParams {o : DemangleOptions} {fuel : Nat} (ih : StepAll o fuel) :
    ∀ ll pt sht st, StepR o st (printFunctionParameters (fuel+1) o ll pt sht st) := by
  intro ll pt sht st
  show StepR o st (printFunctionParameters fuel.succ o ll pt sht st)
  cases ll with
  | none =>
      rw [printFunctionParameters.eq_3]
      repeat' first
        | refine stepR_trans ?_ (ih.fnParamsLoop _ _ _ _ _ _)
        | refine stepR_trans ?_ (ih.printOk _ _ _)
        | refine stepR_emit ?_
        | refine stepR_setInvalid ?_
        | exact stepR_refl
        | split
        | dsimp only
  | some l =>
      rw [printFunctionParameters.eq_2]
      repeat' first
        | refine stepR_trans ?_ (ih.fnParamsLoop _ _ _ _ _ _)
        | refine stepR_trans ?_ (ih.printOk _ _ _)
        | refine stepR_emit ?_
        | refine stepR_setInvalid ?_
        | exact stepR_refl
        | split
        | dsimp only

set_option maxHeartbeats 1000000 in
theorem stepAll_fnType {o : DemangleOptions} {fuel : Nat} (ih : StepAll o fuel) :
    ∀ ll n st, StepR o st (printFunctionType (fuel+1) o ll n st) := by
  intro ll n st
  show StepR o st (printFunctionType fuel.succ o ll n st)
  rw [printFunctionType.eq_2]
  repeat' first
    | refine stepR_trans ?_ (ih.fnParams _ _ _ _)
    | refine stepR_trans ?_ (ih.printOk _ _ _)
    | refine stepR_emit ?_
    | refine stepR_setInvalid ?_
    | exact stepR_refl
    | split
    | dsimp only

set_option maxHeartbeats 1000000 in
theorem stepAll_specLoop {o : DemangleOptions} {fuel : Nat} (ih : StepAll o fuel) :
    ∀ cs sep pq an st, StepR o st (printSpecializationLoop (fuel+1) o cs sep pq an st) := by
  intro cs sep pq an st
  show StepR o st (printSpecializationLoop fuel.succ o cs sep pq an st)
  cases cs with
  | nil =>
      rw [printSpecializationLoop.eq_2]
      exact stepR_refl
  | cons c rest =>
      rw [printSpecializationLoop.eq_3]
      repeat' first
        | refine stepR_trans ?_ (ih.specLoop _ _ _ _ _)
        | refine stepR_trans ?_ (ih.printOk _ _ _)
        | refine stepR_emit ?_
        | exact stepR_refl
        | split
        | dsimp only

set_option maxHeartbeats 2000000 in
theorem stepAll_specMarker {o : DemangleOptions} {fuel : Nat} (ih : StepAll o fuel) :
    ∀ n d pq st, StepR o st (printSpecializationMarker (fuel+1) o n d pq st) := by
  intro n d pq st
  show StepR o st (printSpecializationMarker fuel.succ o n d pq st)
  rw [printSpecializationMarker.eq_2]
  dsimp only
  by_cases hterse : o.DisplayGenericSpecializations = false
  · rw [if_pos (by simp [hterse])]
    by_cases hspp : st.spp = true
    · rw [if_neg (by simp [hspp])]
      refine ⟨fun h => h, fun ht hi => ?_⟩
      obtain ⟨h1, h2⟩ := hi
      rw [hspp] at h1
      have hpos : 0 < st.sppCalls := by
        by_contra hc
        simp [Nat.not_lt, Nat.le_zero] at hc
        simp [hc] at h1
      constructor
      · simp [hspp]
      · simp
        omega
    · rw [if_pos (by simp [Bool.not_eq_true] at hspp; simp [hspp])]
      refine ⟨fun h => h, fun ht hi => ?_⟩
      obtain ⟨h1, h2⟩ := hi
      simp [Bool.not_eq_true] at hspp
      rw [hspp] at h1
      have hc0 : st.sppCalls = 0 := by
        by_contra hc
        have : 0 < st.sppCalls := Nat.pos_of_ne_zero hc
        simp [this] at h1
      constructor
      · simp [emit]
      · simp [emit, hc0] at h2 ⊢
        omega
  · rw [if_neg (by simpa using hterse)]
    have base : StepR o st { st with sppCalls := st.sppCalls + 1 } :=
      ⟨fun h => h, fun ht _ => absurd ht hterse⟩
    repeat' first
      | refine stepR_trans ?_ (ih.specLoop _ _ _ _ _)
      | refine stepR_emit ?_
      | exact base
      | split
      | dsimp only

set_option maxHeartbeats 2000000 in
theorem stepAll_entityType {o : DemangleOptions} {fuel : Nat} (ih : StepAll o fuel) :
    ∀ e ty g st, StepR o st (printEntityType (fuel+1) o e ty g st) := by
  intro e ty g st
  show StepR o st (printEntityType fuel.succ o e ty g st)
  cases g with
  | none =>
      rw [printEntityType.eq_3]
      repeat' first
        | refine stepR_trans ?_ (ih.fnType _ _ _)
        | refine stepR_trans ?_ (ih.childrenNode _ _ _)
        | refine stepR_trans ?_ (ih.printOk _ _ _)
        | refine stepR_emit ?_
        | exact stepR_refl
        | split
        | dsimp only
  | some l =>
      rw [printEntityType.eq_2]
      repeat' first
        | refine stepR_trans ?_ (ih.fnType _ _ _)
        | refine stepR_trans ?_ (ih.childrenNode _ _ _)
        | refine stepR_trans ?_ (ih.printOk _ _ _)
        | refine stepR_emit ?_
        | exact stepR_refl
        | split
        | dsimp only

set_option maxHeartbeats 1000000 in
theorem stepAll_entityContext {o : DemangleOptions} {fuel : Nat} (ih : StepAll o fuel) :
    ∀ e mw st, StepR o st (printEntityContext (fuel+1) o e mw st).1 := by
  intro e mw st
  show StepR o st (printEntityContext fuel.succ o e mw st).1
  rw [printEntityContext.eq_2]
  repeat' first
    | refine stepR_trans ?_ (ih.printOk _ _ _)
    | refine stepR_emit ?_
    | exact stepR_refl
    | split
    | dsimp only

set_option maxHeartbeats 1000000 in
theorem stepAll_entityName {o : DemangleOptions} {fuel : Nat} (ih : StepAll o fuel) :
    ∀ e hn en mw ow st, StepR o st (printEntityName (fuel+1) o e hn en mw ow st).1 := by
  intro e hn en mw ow st
  show StepR o st (printEntityName fuel.succ o e hn en mw ow st).1
  rw [printEntityName.eq_2]
  repeat' first
    | refine stepR_trans ?_ (ih.printOk _ _ _)
    | refine stepR_emit ?_
    | exact stepR_refl
    | split
    | dsimp only

set_option maxHeartbeats 1000000 in
theorem stepAll_entityTypeSection {o : DemangleOptions} {fuel : Nat} (ih : StepAll o fuel) :
    ∀ e tp mw g st, StepR o st (printEntityTypeSection (fuel+1) o e tp mw g st).1 := by
  intro e tp mw g st
  show StepR o st (printEntityTypeSection fuel.succ o e tp mw g st).1
  rw [printEntityTypeSection.eq_2]
  repeat' first
    | refine stepR_trans ?_ (ih.entityType _ _ _ _)
    | refine stepR_emit ?_
    | refine stepR_setInvalid ?_
    | exact stepR_refl
    | split
    | dsimp only

set_option maxHeartbeats 1000000 in
theorem stepAll_entity {o : DemangleOptions} {fuel : Nat} (ih : StepAll o fuel) :
    ∀ e apc tp hn en ei ow st,
      StepR o st (printEntity (fuel+1) o e apc tp hn en ei ow st).1 := by
  intro e apc tp hn en ei ow st
  show StepR o st (printEntity fuel.succ o e apc tp hn en ei ow st).1
  rw [printEntity.eq_2]
  repeat' first
    | refine stepR_trans ?_ (ih.entityTypeSection _ _ _ _ _)
    | refine stepR_trans ?_ (ih.entityName _ _ _ _ _ _)
    | refine stepR_trans ?_ (ih.entityContext _ _ _)
    | refine stepR_trans ?_ (ih.printOk _ _ _)
    | refine stepR_emit ?_
    | exact stepR_refl
    | split
    | dsimp only

set_option maxHeartbeats 8000000 in
theorem stepAll_print {o : DemangleOptions} {fuel : Nat} (ih : StepAll o fuel) :
    ∀ n apc st, StepR o st (print (fuel+1) o n apc st).1 := by
  intro n apc st
  show StepR o st (print fuel.succ o n apc st).1
  rw [print.eq_2]
  obtain ⟨k, tx, ix, cs⟩ := n
  cases k <;>
    ( dsimp only [Node.kind]
      repeat' first
        | refine stepR_trans ?_ (ih.entity _ _ _ _ _ _ _ _)
        | refine stepR_trans ?_ (ih.boundGeneric _ _)
        | refine stepR_trans ?_ (ih.specMarker _ _ _ _)
        | refine stepR_trans ?_ (ih.fnType _ _ _)
        | refine stepR_trans ?_ (ih.fnParams _ _ _ _)
        | refine stepR_trans ?_ (ih.childrenNode _ _ _)
        | refine stepR_trans ?_ (ih.printOk _ _ _)
        | refine stepR_emit ?_
        | exact stepR_refl
        | split
        | dsimp only )

theorem stepAll_zero (o : DemangleOptions) : StepAll o 0 :=
  ⟨fun _ _ _ => stepR_refl, fun _ _ _ => stepR_refl, fun _ _ _ => stepR_refl,
   fun _ _ => stepR_refl, fun _ _ => stepR_refl, fun _ _ => stepR_refl,
   fun _ _ _ _ _ _ => stepR_refl, fun _ _ _ _ => stepR_refl, fun _ _ _ => stepR_refl,
   fun _ _ _ _ _ => stepR_refl, fun _ _ _ _ => stepR_refl,
   fun _ _ _ _ _ _ _ _ => stepR_refl, fun _ _ _ _ => stepR_refl,
   fun _ _ _ => stepR_refl, fun _ _ _ _ _ _ => stepR_refl,
   fun _ _ _ _ _ => stepR_refl⟩

theorem stepAll_holds (o : DemangleOptions) : ∀ fuel : Nat, StepAll o fuel := by
  intro fuel
  induction fuel with
  | zero => exact stepAll_zero o
  | succ fuel ih =>
      exact ⟨stepAll_print ih, stepAll_childrenSep ih, stepAll_childrenNode ih,
        stepAll_bgNoSugar ih, stepAll_withParens ih, stepAll_boundGeneric ih,
        stepAll_fnParamsLoop ih, stepAll_fnParams ih, stepAll_fnType ih,
        stepAll_specLoop ih, stepAll_specMarker ih, stepAll_entity ih,
        stepAll_entityType ih, stepAll_entityContext ih, stepAll_entityName ih,
        stepAll_entityTypeSection ih⟩

end StepLemmas

theorem specInv_mkNodePrinter : SpecInv mkNodePrinter := ⟨rfl, rfl⟩

theorem printChildrenSep_nil (fuel : Nat) (o : DemangleOptions) (sep : Option String)
    (st : PState) : printChildrenSep fuel o [] sep st = st := by
  cases fuel <;> rfl

theorem genericParameterNameLoop_eq (i : Nat) :
    genericParameterNameLoop i = String.mk (base26LettersLSD i) := by
  induction i using Nat.strong_induction_on with
  | _ i ih =>
    rw [genericParameterNameLoop, base26LettersLSD]
    by_cases h : i / 26 = 0
    · have h26 : i < 26 := by omega
      have hmod : i % 26 = i := Nat.mod_eq_of_lt h26
      rw [dif_pos h, if_pos h26, hmod]
      rfl
    · have h26 : ¬ i < 26 := by omega
      rw [dif_neg h, if_neg h26]
      rw [ih (i / 26) (Nat.div_lt_self (by omega) (by omega))]
      rfl

set_option maxHeartbeats 1000000 in
/-- C1: with sugar synthesis enabled, a bound-generic-enum whose unbound base
is the standard-library identifier "Optional" with one type argument T
renders as T followed by "?" (T parenthesized exactly when it is not a
simple type); the same shape with "ImplicitlyUnwrappedOptional" renders as T
followed by "!"; a bound-generic-structure with base "Array" and one
argument renders as "[T]"; with base "Dictionary" and two arguments as
"[K : V]"; and when the base type's enclosing module is any module other
than the standard-library module, the same "Array" shape renders un-sugared
as Base followed by the angle-bracketed argument list. -/
theorem C1_sugar_rendering :
    ∀ (o : DemangleOptions) (T K V : Node) (m : String) (st : PState) (c : Nat),
      o.SynthesizeSugarOnTypes = true →
      m ≠ STDLIB_NAME →
      (print (c+1+1+1) o (optionalNode T) false st =
        (emit "?"
          (if isSimpleType T then (print c o T false st).1
           else emit ")" ((print c o T false (emit "(" st)).1)), none)) ∧
      (print (c+1+1+1) o (iuoNode T) false st =
        (emit "!"
          (if isSimpleType T then (print c o T false st).1
           else emit ")" ((print c o T false (emit "(" st)).1)), none)) ∧
      (print (c+1+1) o (arrayNode T) false st =
        (emit "]" ((print c o T false (emit "[" st)).1), none)) ∧
      (print (c+1+1) o (dictionaryNode K V) false st =
        (emit "]" ((print c o V false
          (emit " : " ((print c o K false (emit "[" st)).1))).1), none)) ∧
      (print (c+1+1+1+1+1) o (foreignArrayNode m T) false st =
        (emit ">" ((print c o T false
          (emit "<" ((print (c+1+1) o
            (Node.mk Kind.Type "" none [Node.mk Kind.Structure "" none
              [Node.mk Kind.Module m none [],
               Node.mk Kind.Identifier "Array" none []]]) false st).1))).1), none)) := by
  intro o T K V m st c hsugar hm
  refine ⟨?_, ?_, ?_, ?_, ?_⟩
  · show print (Nat.succ (Nat.succ (Nat.succ c))) o (optionalNode T) false st = _
    rw [print.eq_2]
    simp +decide [optionalNode, Node.kind, Node.getChild, Node.getNumChildren, Node.children,
      printBoundGeneric.eq_2, printWithParens.eq_2, findSugar, isIdentifier, isSwiftModule,
      Node.text, hsugar, STDLIB_NAME]
    cases hsimple : isSimpleType T <;> simp [hsimple]
  · show print (Nat.succ (Nat.succ (Nat.succ c))) o (iuoNode T) false st = _
    rw [print.eq_2]
    simp +decide [iuoNode, Node.kind, Node.getChild, Node.getNumChildren, Node.children,
      printBoundGeneric.eq_2, printWithParens.eq_2, findSugar, isIdentifier, isSwiftModule,
      Node.text, hsugar, STDLIB_NAME]
    cases hsimple : isSimpleType T <;> simp [hsimple]
  · show print (Nat.succ (Nat.succ c)) o (arrayNode T) false st = _
    rw [print.eq_2]
    simp +decide [arrayNode, Node.kind, Node.getChild, Node.getNumChildren, Node.children,
      printBoundGeneric.eq_2, findSugar, isIdentifier, isSwiftModule,
      Node.text, hsugar, STDLIB_NAME]
  · show print (Nat.succ (Nat.succ c)) o (dictionaryNode K V) false st = _
    rw [print.eq_2]
    simp +decide [dictionaryNode, Node.kind, Node.getChild, Node.getNumChildren,
      Node.children, printBoundGeneric.eq_2, findSugar, isIdentifier, isSwiftModule,
      Node.text, hsugar, STDLIB_NAME]
  · show print (Nat.succ (Nat.succ (Nat.succ (Nat.succ (Nat.succ c))))) o
      (foreignArrayNode m T) false st = _
    rw [print.eq_2]
    have hm' : ¬(m = "Swift") := by simpa [STDLIB_NAME] using hm
    simp +decide [foreignArrayNode, Node.kind, Node.getChild, Node.getNumChildren,
      Node.children, printBoundGeneric.eq_2, printBoundGenericNoSugar.eq_2,
      printChildrenNode.eq_2, printChildrenSep.eq_3, printChildrenSep_nil,
      findSugar, isIdentifier, isSwiftModule,
      Node.text, hsugar, hm', STDLIB_NAME]

theorem C1_sugar_rendering_witness :
    exampleOptions.SynthesizeSugarOnTypes = true ∧
    ("MyLib" : String) ≠ STDLIB_NAME ∧
    print (10+1+1+1) exampleOptions (optionalNode intTypeNode) false mkNodePrinter =
      (emit "?"
        (if isSimpleType intTypeNode
         then (print 10 exampleOptions intTypeNode false mkNodePrinter).1
         else emit ")" ((print 10 exampleOptions intTypeNode false
           (emit "(" mkNodePrinter)).1)), none) ∧
    print (10+1+1) exampleOptions (arrayNode intTypeNode) false mkNodePrinter =
      (emit "]" ((print 10 exampleOptions intTypeNode false (emit "[" mkNodePrinter)).1),
       none) :=
  ⟨rfl, by decide,
   (C1_sugar_rendering exampleOptions intTypeNode intTypeNode intTypeNode "MyLib"
      mkNodePrinter 10 rfl (by decide)).1,
   (C1_sugar_rendering exampleOptions intTypeNode intTypeNode intTypeNode "MyLib"
      mkNodePrinter 10 rfl (by decide)).2.2.1⟩

/-- C2: under terse specialization display (display-generic-specializations
off), a top-level print that renders two or more specialization-kind nodes
appends the literal "specialized " exactly once: the ghost counter
`sppCalls` counts the specialization-prefix printer's entries and
`sppEmits` counts the executions of the statement that appends the literal,
so whenever at least two specialization nodes were rendered the literal was
appended exactly once. -/
theorem C2_specialization_marker_once :
    ∀ (o : DemangleOptions) (fuel : Nat) (root : Node),
      o.DisplayGenericSpecializations = false →
      2 ≤ ((print fuel o root false mkNodePrinter).1).sppCalls →
      ((print fuel o root false mkNodePrinter).1).sppEmits = 1 := by
  intro o fuel root hterse hcalls
  have h := ((stepAll_holds o fuel).printOk root false mkNodePrinter).2 hterse
    specInv_mkNodePrinter
  rw [h.2]
  omega

theorem C2_specialization_marker_once_witness :
    2 ≤ ((print 20 exampleOptions doubleSpecializationTree false mkNodePrinter).1).sppCalls ∧
    ((print 20 exampleOptions doubleSpecializationTree false mkNodePrinter).1).sppEmits = 1 :=
  ⟨by decide, C2_specialization_marker_once exampleOptions 20 doubleSpecializationTree rfl
    (by decide)⟩

/-- C3: the validity flag is never resurrected by any rendering step (a
render whose result is still valid started from a valid state, so once any
step clears the flag it stays cleared); the top-level entry returns the
accumulated buffer when the flag survived and the empty string otherwise,
discarding all partial output; and the two locally tolerable structural
mismatches named by the specification do clear the flag: a function-type
parameter child that is not an ArgumentTuple, and a function-type node with
fewer than 2 or more than 5 children. -/
theorem C3_invalid_flag_soft_fail :
    (∀ (o : DemangleOptions) (fuel : Nat) (n : Node) (apc : Bool) (st : PState),
      ((print fuel o n apc st).1).valid = true → st.valid = true) ∧
    (∀ (o : DemangleOptions) (fuel : Nat) (root : Node),
      nodeToString fuel (some root) o =
        if ((print fuel o root false mkNodePrinter).1).valid = true
        then ((print fuel o root false mkNodePrinter).1).out else "") ∧
    (∀ (o : DemangleOptions) (fuel : Nat) (ll : Option Node) (pt : Node) (sh : Bool)
        (st : PState),
      pt.kind ≠ Kind.ArgumentTuple →
      printFunctionParameters (fuel+1) o ll pt sh st = setInvalid st) ∧
    (∀ (o : DemangleOptions) (fuel : Nat) (ll : Option Node) (n : Node) (st : PState),
      n.getNumChildren < 2 ∨ n.getNumChildren > 5 →
      printFunctionType (fuel+1) o ll n st = setInvalid st) := by
  refine ⟨?_, ?_, ?_, ?_⟩
  · exact fun o fuel n apc st => ((stepAll_holds o fuel).printOk n apc st).1
  · intro o fuel root
    simp only [nodeToString, printRoot, mkNodePrinter]
    split
    · next h => simp_all
    · next h => simp_all
  · intro o fuel ll pt sh st h
    cases ll with
    | none =>
        show printFunctionParameters (Nat.succ fuel) o none pt sh st = setInvalid st
        rw [printFunctionParameters.eq_3, if_pos h]
    | some l =>
        show printFunctionParameters (Nat.succ fuel) o (some l) pt sh st = setInvalid st
        rw [printFunctionParameters.eq_2, if_pos h]
  · intro o fuel ll n st h
    show printFunctionType (Nat.succ fuel) o ll n st = setInvalid st
    rw [printFunctionType.eq_2, if_pos h]

theorem C3_invalid_flag_soft_fail_witness :
    mkNodePrinter.valid = true ∧
    printFunctionParameters (3+1) exampleOptions none (Node.mk Kind.Identifier "x" none [])
        true mkNodePrinter = setInvalid mkNodePrinter ∧
    printFunctionType (3+1) exampleOptions none
        (Node.mk Kind.FunctionType "" none [intTypeNode]) mkNodePrinter =
      setInvalid mkNodePrinter :=
  ⟨C3_invalid_flag_soft_fail.1 exampleOptions 5 (Node.mk Kind.Identifier "x" none [])
      false mkNodePrinter (by decide),
   C3_invalid_flag_soft_fail.2.2.1 exampleOptions 3 none
      (Node.mk Kind.Identifier "x" none []) true mkNodePrinter (by decide),
   C3_invalid_flag_soft_fail.2.2.2 exampleOptions 3 none
      (Node.mk Kind.FunctionType "" none [intTypeNode]) mkNodePrinter
      (Or.inl (by decide))⟩

/-- C4: the string-quoting routine is total over arbitrary byte sequences
(bytes are Fin 256), wraps its output in double quotes around the
concatenated per-byte expansions, the per-byte expansion agrees with the
specified escape table (standard two-character escapes for backslash, tab,
newline, carriage return, double quote and NUL; uppercase \xHH for any
other byte below 0x20 or at/above 0x7F; pass-through otherwise), and the
byte sequence tab, double-quote, 0x01 renders as the eight characters
quote backslash-t backslash-quote backslash-x-0-1 quote. -/
theorem C4_quoted_string_escaping :
    (∀ bytes : List (Fin 256),
      printQuotedString bytes =
        "\"" ++ String.join (bytes.map quotedCharExpansion) ++ "\"") ∧
    (∀ b : Fin 256, quotedCharExpansion b = quotedCharSpec b) ∧
    printQuotedString [9, 34, 1] = "\"\\t\\\"\\x01\"" := by
  refine ⟨fun _ => rfl, by decide, by decide⟩

/-- C5: the default generic-parameter namer spells the index in base 26
with letters 'A'..'Z', least-significant letter first (a single letter
'A'+i for i below 26, and a two-letter name for i = 26 whose first letter
is 'A'), followed by the decimal depth exactly when the depth is
nonzero. -/
theorem C5_generic_parameter_namer :
    (∀ d i : Nat,
      genericParameterName d i =
        String.mk (base26LettersLSD i) ++ (if d ≠ 0 then toString d else "")) ∧
    (∀ d i : Nat, i < 26 →
      genericParameterName d i =
        String.singleton (Char.ofNat (65 + i)) ++ (if d ≠ 0 then toString d else "")) ∧
    genericParameterName 0 26 = "AB" := by
  refine ⟨?_, ?_, ?_⟩
  · intro d i
    rw [genericParameterName, genericParameterNameLoop_eq]
  · intro d i h
    rw [genericParameterName, genericParameterNameLoop_eq, base26LettersLSD, if_pos h]
    rfl
  · have hl : base26LettersLSD 26 = ['A', 'B'] := by
      rw [base26LettersLSD]
      norm_num
      rw [base26LettersLSD]
      decide
    rw [genericParameterName, genericParameterNameLoop_eq, hl]
    decide

theorem C5_generic_parameter_namer_witness :
    (5 : Nat) < 26 ∧
    genericParameterName 0 5 =
      String.singleton (Char.ofNat (65 + 5)) ++
        (if (0 : Nat) ≠ 0 then toString (0 : Nat) else "") :=
  ⟨by decide, C5_generic_parameter_namer.2.1 0 5 (by decide)⟩

/-- C6: the type-simplicity classifier is a function of the node for which
a ProtocolList node is simple exactly when its first child has at most one
member, a ProtocolListWithAnyObject node is simple exactly when its nested
protocol type-list is empty, and a ProtocolListWithClass node is always
compound. -/
theorem C6_type_simplicity_classifier :
    (∀ n : Node, n.kind = Kind.ProtocolList →
      (isSimpleType n = true ↔ (n.getChild 0).getNumChildren ≤ 1)) ∧
    (∀ n : Node, n.kind = Kind.ProtocolListWithAnyObject →
      (isSimpleType n = true ↔ ((n.getChild 0).getChild 0).getNumChildren = 0)) ∧
    (∀ n : Node, n.kind = Kind.ProtocolListWithClass → isSimpleType n = false) := by
  refine ⟨?_, ?_, ?_⟩ <;> intro n h <;>
    simp [isSimpleType, h]

theorem C6_type_simplicity_classifier_witness :
    isSimpleType (Node.mk Kind.ProtocolList "" none [Node.mk Kind.TypeList "" none []]) =
      true ∧
    isSimpleType (Node.mk Kind.ProtocolListWithClass "" none []) = false :=
  ⟨(C6_type_simplicity_classifier.1
      (Node.mk Kind.ProtocolList "" none [Node.mk Kind.TypeList "" none []]) rfl).2
      (by decide),
   C6_type_simplicity_classifier.2.2 (Node.mk Kind.ProtocolListWithClass "" none []) rfl⟩

set_option maxHeartbeats 1000000 in
set_option maxHeartbeats 1000000 in
/-- C7: an entity printed with a synthetic extra name containing a space,
with a context that qualifies for display, never renders its context in
prefix form, whatever the type-printing mode (no type, colon form, or the
function-style form used for closures when argument types are shown): the
extra name (and its index) is printed first, then the type section runs on
that state, and the context is rendered only afterwards in suffix form,
introduced by " of " for the initializer-like entity kind and by " in "
otherwise (when the type section soft-fails on a malformed entity the
render bails with no context printed at all, still never in prefix
form). -/
theorem C7_multiword_extra_name_context_suffix :
    ∀ (o : DemangleOptions) (entity : Node) (typePr : TypePrinting) (extraName : String)
      (extraIndex : Int) (st : PState) (g : Nat),
      extraName.data.contains ' ' = true →
      entity.kind ≠ Kind.BoundGenericFunction →
      printContext o (entity.getChild 0) = true →
      printEntity (g+1+1) o entity false typePr false extraName extraIndex "" st =
        (let afterName :=
          if extraIndex ≥ 0 then emit (toString extraIndex) (emit extraName st)
          else emit extraName st
         let stOk := printEntityTypeSection (g+1) o entity typePr true none afterName
         if !stOk.2 then (stOk.1, none)
         else
           ((print (g+1) o (entity.getChild 0) false
              (emit (if entity.kind = Kind.Initializer then " of " else " in ")
                stOk.1)).1, none)) := by
  intro o entity typePr extraName extraIndex st g hspace hkind hctx
  have hne : ¬(extraName = "") := by
    intro h
    rw [h] at hspace
    exact absurd hspace (by decide)
  have hmem : ' ' ∈ extraName.data := by simpa using hspace
  show printEntity (Nat.succ (Nat.succ g)) o entity false typePr false
      extraName extraIndex "" st = _
  rw [printEntity.eq_2]
  simp +decide [printEntityContext.eq_2, printEntityName.eq_2,
    hmem, hctx, hkind, hne]

theorem C7_multiword_extra_name_context_suffix_witness :
    ("closure #").data.contains ' ' = true ∧
    closureWithTypeNode.kind ≠ Kind.BoundGenericFunction ∧
    printContext exampleOptions (closureWithTypeNode.getChild 0) = true ∧
    (printEntity (18+1+1) exampleOptions closureWithTypeNode false
        TypePrinting.FunctionStyle false "closure #" 1 "" mkNodePrinter =
      (let afterName :=
        if (1 : Int) ≥ 0 then emit (toString (1 : Int)) (emit "closure #" mkNodePrinter)
        else emit "closure #" mkNodePrinter
       let stOk := printEntityTypeSection (18+1) exampleOptions closureWithTypeNode
         TypePrinting.FunctionStyle true none afterName
       if !stOk.2 then (stOk.1, none)
       else
         ((print (18+1) exampleOptions (closureWithTypeNode.getChild 0) false
            (emit (if closureWithTypeNode.kind = Kind.Initializer then " of " else " in ")
              stOk.1)).1, none))) ∧
    (printEntity (10+1+1) exampleOptions exampleClosureNode false
        TypePrinting.NoType false "closure #" 1 "" mkNodePrinter =
      (let afterName :=
        if (1 : Int) ≥ 0 then emit (toString (1 : Int)) (emit "closure #" mkNodePrinter)
        else emit "closure #" mkNodePrinter
       let stOk := printEntityTypeSection (10+1) exampleOptions exampleClosureNode
         TypePrinting.NoType true none afterName
       if !stOk.2 then (stOk.1, none)
       else
         ((print (10+1) exampleOptions (exampleClosureNode.getChild 0) false
            (emit (if exampleClosureNode.kind = Kind.Initializer then " of " else " in ")
              stOk.1)).1, none))) ∧
    (printEntity (18+1+1) exampleOptions closureWithTypeNode false
        TypePrinting.FunctionStyle false "closure #" 1 "" mkNodePrinter).1.out =
      "closure #1 () -> Int in MyModule" :=
  ⟨by decide, by decide, by decide,
   C7_multiword_extra_name_context_suffix exampleOptions closureWithTypeNode
     TypePrinting.FunctionStyle "closure #" 1 mkNodePrinter 18
     (by decide) (by decide) (by decide),
   C7_multiword_extra_name_context_suffix exampleOptions exampleClosureNode
     TypePrinting.NoType "closure #" 1 mkNodePrinter 10
     (by decide) (by decide) (by decide),
   by decide⟩

/-- C8 counterexample: printRoot does not reset the one-shot specialization
flag (nor the buffer): after one top-level print of a terse-mode
specialization tree through a printer, the flag is left set and a second
top-level print of the same tree through the same printer object produces a
different string, so the result of a top-level print does depend on an
earlier top-level print through the same printer. -/
theorem C8_printRoot_reset_counterexample :
    (printRoot 20 exampleOptions doubleSpecializationTree mkNodePrinter).1 =
      "specialized f" ∧
    ((printRoot 20 exampleOptions doubleSpecializationTree mkNodePrinter).2).spp = true ∧
    (printRoot 20 exampleOptions doubleSpecializationTree
        ((printRoot 20 exampleOptions doubleSpecializationTree mkNodePrinter).2)).1 =
      "f" := by
  refine ⟨by decide, by decide, by decide⟩

/-- C8 amended: at the start of a top-level print only the validity flag is
reset (the result of printRoot is unchanged if the incoming validity flag
is replaced by true); the output buffer and the one-shot specialization
flag are initialized when the printer is constructed, and the public entry
point constructs a fresh printer per call, which is what isolates
successive top-level prints from each other. -/
theorem C8_printRoot_resets_only_validity :
    (∀ (fuel : Nat) (o : DemangleOptions) (root : Node) (st : PState) (v : Bool),
      printRoot fuel o root { st with valid := v } =
        printRoot fuel o root { st with valid := true }) ∧
    (∀ (fuel : Nat) (r : Node) (o : DemangleOptions),
      nodeToString fuel (some r) o = (printRoot fuel o r mkNodePrinter).1) :=
  ⟨fun _ _ _ _ _ => rfl, fun _ _ _ => rfl⟩

/-- C9: rendering is deterministic with no cross-call state leakage: two
invocations of the public entry point on equal roots and equal options
produce equal strings, and each invocation renders through a freshly
constructed printer state. -/
theorem C9_deterministic_rendering :
    (∀ (fuel : Nat) (root root2 : Option Node) (o o2 : DemangleOptions),
      root = root2 → o = o2 →
      nodeToString fuel root o = nodeToString fuel root2 o2) ∧
    (∀ (fuel : Nat) (r : Node) (o : DemangleOptions),
      nodeToString fuel (some r) o = (printRoot fuel o r mkNodePrinter).1) :=
  ⟨fun _ _ _ _ _ h1 h2 => by rw [h1, h2], fun _ _ _ => rfl⟩

theorem C9_deterministic_rendering_witness :
    nodeToString 5 (some intTypeNode) exampleOptions =
      nodeToString 5 (some intTypeNode) exampleOptions :=
  C9_deterministic_rendering.1 5 (some intTypeNode) (some intTypeNode) exampleOptions
    exampleOptions rfl rfl

/-- C10: a null root makes the public entry point return the empty string
without any rendering, and a malformed tree that soft-fails also returns
the empty string, so an empty result does not by itself distinguish a null
input from a soft-failed render. -/
theorem C10_null_root_empty :
    (∀ (fuel : Nat) (o : DemangleOptions), nodeToString fuel none o = "") ∧
    nodeToString 20 (some malformedFunctionTypeNode) exampleOptions = "" := by
  exact ⟨fun _ _ => rfl, by decide⟩

end NodePrinterModel
